import Mathlib

/-!
Verification of the example purchase domain of the effect-template
repository: the Cart value model (`src/domain/models/Cart.ts`), the
discount policy (`src/policies/purchase/DiscountPolicy.ts`) and the
checkout workflow (`src/workflows/purchase/checkout.ts`).

JavaScript numbers are embedded as rationals (ℚ); the arithmetic the
examples perform (sums, products, a 10 percent discount) is exact there.
The branded money constructor `USD`, the money operation `add` and the
`MoneySchema` admission live in `domain/models/Money.ts`, which is not
among the repository sources; they are modelled from the spec where
needed and marked as such.
-/

namespace EffectTemplate

/-- Modelled from the spec: `USD` from the missing `Money.ts` is the
branded-number constructor ("a non-negative numeric quantity tagged with
currency unit context"); the brand is a type-level tag, identity on the
numeric value. -/
def USD (x : ℚ) : ℚ := x

/-- Modelled from the spec: `add` from the missing `Money.ts` is addition
of two USD amounts. -/
def add (a b : ℚ) : ℚ := a + b

/-- `CartItem` schema of `Cart.ts` (src/unnamed/part_003): identifier,
name, `price: MoneySchema`, `quantity: Schema.Number`. -/
structure CartItem where
  id : String
  name : String
  price : ℚ
  quantity : ℚ
deriving Repr, DecidableEq

/-- `Cart` schema of `Cart.ts`: identifier and an array of items. -/
structure Cart where
  id : String
  items : List CartItem
deriving Repr, DecidableEq

/-- `total` from `Cart.ts`:
`cart.items.reduce((sum, item) => add(sum, USD(item.price * item.quantity)), USD(0))`. -/
def Cart.total (cart : Cart) : ℚ :=
  cart.items.foldl (fun sum item => add sum (USD (item.price * item.quantity))) (USD 0)

/-- `isEmpty` from `Cart.ts`. -/
def Cart.isEmpty (cart : Cart) : Bool := cart.items.length == 0

/-- `DiscountDecision` from `DiscountPolicy.ts`: tagged union
`NoDiscount | ApplyDiscount{percentage}`. -/
inductive DiscountDecision where
  | NoDiscount : DiscountDecision
  | ApplyDiscount (percentage : ℚ) : DiscountDecision
deriving Repr, DecidableEq

/-- `determineDiscount` from `DiscountPolicy.ts`:
`itemCount = cart.items.reduce((acc, item) => acc + item.quantity, 0)`;
if `itemCount > 5` return `ApplyDiscount{percentage: 10}` else `NoDiscount`. -/
def determineDiscount (cart : Cart) : DiscountDecision :=
  let itemCount := cart.items.foldl (fun acc item => acc + item.quantity) 0
  if itemCount > 5 then .ApplyDiscount 10 else .NoDiscount

/-- Spec-side abbreviation: the sum of the quantities of all items. -/
def quantitySum (cart : Cart) : ℚ :=
  (cart.items.map fun item => item.quantity).sum

/-- The final amount checkout computes (`checkout.ts` lines 18-24):
`finalAmount = total`; if the decision is `ApplyDiscount`,
`discountAmount = USD(total * (percentage / 100))` and
`finalAmount = USD(total - discountAmount)`. -/
def finalAmount (cart : Cart) : ℚ :=
  let total := Cart.total cart
  match determineDiscount cart with
  | .ApplyDiscount percentage =>
      let discountAmount := USD (total * (percentage / 100))
      USD (total - discountAmount)
  | .NoDiscount => total

/-- The final amount as the spec words it ("recompute a final amount as
`total × (1 − percentage/100)`, otherwise final amount equals total"),
stated for comparison with `finalAmount` from the source. -/
def specFinalAmount (cart : Cart) : ℚ :=
  match determineDiscount cart with
  | .ApplyDiscount percentage => Cart.total cart * (1 - percentage / 100)
  | .NoDiscount => Cart.total cart

/-- The messages `checkout.ts` sends to the logging collaborator, one
constructor per template string. -/
inductive LogMessage where
  | startingCheckout (cartId : String) : LogMessage
  | discountApplied (percentage : ℚ) : LogMessage
  | charged (amount : ℚ) : LogMessage
deriving Repr, DecidableEq

/-- Observable steps of a checkout run: each logging call (with whether
the sink itself succeeded) and each payment charge. -/
inductive CheckoutEvent where
  | log (message : LogMessage) (sinkOk : Bool) : CheckoutEvent
  | charge (amount : ℚ) : CheckoutEvent
deriving Repr, DecidableEq

/-- The success record `{ status: "SUCCESS", amount: finalAmount }`. -/
structure CheckoutResult where
  status : String
  amount : ℚ
deriving Repr, DecidableEq

/-- `checkout` from `checkout.ts`, over an injected payment collaborator
`payment` (its `charge` returns success or a failure of type ε) and a
logging sink `logSink` reporting whether each logging call succeeded.
Modelled from the spec for the collaborators outside the sources: the
logging collaborator (`Console.log`, error channel `never`) is a
side-effecting sink whose failures are not propagated, so the run
continues after every logging call; `PaymentSvc.charge` is a single
fallible operation. The run is:
log start; compute `total` and the discount decision; on
`ApplyDiscount` compute the discounted amount and log it; charge the
final amount, propagating a failure unchanged; otherwise log the charge
and return `{ status: "SUCCESS", amount: finalAmount }`. -/
def checkout {ε : Type} (logSink : LogMessage → Bool) (payment : ℚ → Except ε Unit)
    (cart : Cart) : List CheckoutEvent × Except ε CheckoutResult :=
  let startEvent := CheckoutEvent.log (.startingCheckout cart.id)
    (logSink (.startingCheckout cart.id))
  let fa := finalAmount cart
  let midEvents : List CheckoutEvent :=
    match determineDiscount cart with
    | .ApplyDiscount percentage =>
        [CheckoutEvent.log (.discountApplied percentage)
          (logSink (.discountApplied percentage))]
    | .NoDiscount => []
  match payment fa with
  | .error e => (startEvent :: midEvents ++ [CheckoutEvent.charge fa], .error e)
  | .ok _ =>
      (startEvent :: midEvents ++
        [CheckoutEvent.charge fa,
         CheckoutEvent.log (.charged fa) (logSink (.charged fa))],
       .ok ⟨"SUCCESS", fa⟩)

/-- The amounts a run passed to the payment collaborator, in order. -/
def chargedAmounts (events : List CheckoutEvent) : List ℚ :=
  events.filterMap fun e =>
    match e with
    | .charge amount => some amount
    | .log _ _ => none

/-- Modelled from the spec: admission by `MoneySchema` of the missing
`Money.ts` ("Money amount: a non-negative numeric quantity"). -/
def MoneySchemaAdmits (x : ℚ) : Prop := 0 ≤ x

/-- Admission by the `CartItem` schema of `Cart.ts`: `price` must pass
`MoneySchema`; `quantity` is `Schema.Number`, which admits any number. -/
def CartItemAdmits (item : CartItem) : Prop := MoneySchemaAdmits item.price

/-- Admission by the `Cart` schema of `Cart.ts`: every item must pass the
`CartItem` schema (`Schema.UUID` constrains only the id string and is
irrelevant to price and quantity bounds). -/
def CartAdmits (cart : Cart) : Prop := ∀ item ∈ cart.items, CartItemAdmits item

/- ### Helper lemmas -/

lemma foldl_add_map {α : Type} (f : α → ℚ) :
    ∀ (l : List α) (a : ℚ), l.foldl (fun acc x => acc + f x) a = a + (l.map f).sum
  | [], a => by simp
  | x :: xs, a => by
      simp only [List.foldl_cons, List.map_cons, List.sum_cons]
      rw [foldl_add_map f xs (a + f x)]
      ring

lemma total_eq_sum (cart : Cart) :
    Cart.total cart = (cart.items.map fun item => item.price * item.quantity).sum := by
  unfold Cart.total add USD
  rw [foldl_add_map (fun item : CartItem => item.price * item.quantity) cart.items 0]
  ring

lemma itemCount_eq_quantitySum (cart : Cart) :
    cart.items.foldl (fun acc item => acc + item.quantity) 0 = quantitySum cart := by
  unfold quantitySum
  rw [foldl_add_map (fun item : CartItem => item.quantity) cart.items 0]
  ring

lemma determineDiscount_eq_ite (cart : Cart) :
    determineDiscount cart =
      if 5 < quantitySum cart then .ApplyDiscount 10 else .NoDiscount := by
  unfold determineDiscount
  rw [itemCount_eq_quantitySum]

lemma determineDiscount_cases (cart : Cart) :
    determineDiscount cart = .NoDiscount ∨ determineDiscount cart = .ApplyDiscount 10 := by
  rw [determineDiscount_eq_ite]
  by_cases h : 5 < quantitySum cart <;> simp [h]

lemma finalAmount_eq_spec (cart : Cart) : finalAmount cart = specFinalAmount cart := by
  rcases determineDiscount_cases cart with hd | hd
  · simp [finalAmount, specFinalAmount, hd]
  · simp only [finalAmount, specFinalAmount, USD, hd]
    ring

/- ### Claim theorems -/

/-- C1: for every cart, `determineDiscount` returns `ApplyDiscount{percentage: 10}`
when the sum of the quantities of all items exceeds 5, and `NoDiscount`
otherwise. -/
theorem determineDiscount_threshold (cart : Cart) :
    determineDiscount cart =
      if 5 < quantitySum cart then DiscountDecision.ApplyDiscount 10
      else DiscountDecision.NoDiscount :=
  determineDiscount_eq_ite cart

/-- C2: checkout computes the final amount as `total * (1 - percentage/100)`
on `ApplyDiscount{percentage}` and as `total` otherwise, passes exactly that
amount to the payment collaborator in its single charge, and on payment
success returns `{ status: "SUCCESS", amount: finalAmount }`. -/
theorem checkout_final_amount_and_success {ε : Type} (logSink : LogMessage → Bool)
    (payment : ℚ → Except ε Unit) (cart : Cart) :
    finalAmount cart = specFinalAmount cart ∧
    chargedAmounts (checkout logSink payment cart).1 = [finalAmount cart] ∧
    (payment (finalAmount cart) = .ok () →
      (checkout logSink payment cart).2 =
        .ok ⟨"SUCCESS", finalAmount cart⟩) := by
  refine ⟨finalAmount_eq_spec cart, ?_, ?_⟩
  · rcases determineDiscount_cases cart with hd | hd <;>
      cases hp : payment (finalAmount cart) <;>
      simp [checkout, chargedAmounts, hd, hp]
  · intro hp
    simp [checkout, hp]

/-- C2 witness: a concrete run with an always-succeeding payment collaborator
charges the final amount once and returns the success record. -/
theorem checkout_final_amount_and_success_witness :
    (checkout (fun _ => true) (fun _ => (Except.ok () : Except String Unit))
        ⟨"c", [⟨"i", "n", 20, 6⟩]⟩).2 =
      .ok ⟨"SUCCESS", finalAmount ⟨"c", [⟨"i", "n", 20, 6⟩]⟩⟩ :=
  (checkout_final_amount_and_success (fun _ => true)
    (fun _ => (Except.ok () : Except String Unit))
    ⟨"c", [⟨"i", "n", 20, 6⟩]⟩).2.2 rfl

/-- C3: `total` equals the sum over all items of `price * quantity`; it is
non-negative for every cart whose items satisfy the construction bounds the
spec assumes (non-negative price, non-negative quantity); and it is zero on
an empty item sequence. -/
theorem total_spec (cart : Cart) :
    Cart.total cart = (cart.items.map fun item => item.price * item.quantity).sum ∧
    ((∀ item ∈ cart.items, 0 ≤ item.price ∧ 0 ≤ item.quantity) →
      0 ≤ Cart.total cart) ∧
    (cart.items = [] → Cart.total cart = 0) := by
  refine ⟨total_eq_sum cart, ?_, ?_⟩
  · intro h
    rw [total_eq_sum]
    apply List.sum_nonneg
    intro x hx
    simp only [List.mem_map] at hx
    obtain ⟨item, hmem, rfl⟩ := hx
    exact mul_nonneg (h item hmem).1 (h item hmem).2
  · intro h
    simp [Cart.total, h, USD]

/-- C3 witness: a concrete one-item cart has non-negative total, and a
concrete empty cart has total zero. -/
theorem total_spec_witness :
    (0 : ℚ) ≤ Cart.total ⟨"c", [⟨"i", "n", 2, 3⟩]⟩ ∧
    Cart.total ⟨"c0", []⟩ = 0 :=
  ⟨(total_spec ⟨"c", [⟨"i", "n", 2, 3⟩]⟩).2.1 (by
      rintro item hmem
      rw [List.mem_singleton] at hmem
      subst hmem
      constructor <;> norm_num),
   (total_spec ⟨"c0", []⟩).2.2 rfl⟩

/-- C4: when the payment collaborator fails, checkout propagates that failure
value unchanged and emits no success result. (The cart is an immutable value
in the embedding, as in the source, where carts are read-only snapshots:
checkout never produces a modified cart.) -/
theorem checkout_propagates_payment_failure {ε : Type} (logSink : LogMessage → Bool)
    (payment : ℚ → Except ε Unit) (cart : Cart) (e : ε)
    (h : payment (finalAmount cart) = .error e) :
    (checkout logSink payment cart).2 = .error e ∧
    ∀ r : CheckoutResult, (checkout logSink payment cart).2 ≠ .ok r := by
  constructor
  · simp [checkout, h]
  · intro r
    simp [checkout, h]

/-- C4 witness: with a payment collaborator that always fails with "boom",
a concrete checkout run returns exactly that failure. -/
theorem checkout_propagates_payment_failure_witness :
    (checkout (fun _ => true) (fun _ => (Except.error "boom" : Except String Unit))
        ⟨"c", []⟩).2 = .error "boom" :=
  (checkout_propagates_payment_failure (fun _ => true)
    (fun _ => (Except.error "boom" : Except String Unit)) ⟨"c", []⟩ "boom" rfl).1

/-- C5: any cart whose quantities sum to 6 with total 120 gets
`ApplyDiscount{10}` and final amount 108; any cart whose quantities sum to 5
with total 50 gets `NoDiscount` and final amount 50. -/
theorem discount_checkout_examples (cart : Cart) :
    ((quantitySum cart = 6 ∧ Cart.total cart = 120) →
      determineDiscount cart = .ApplyDiscount 10 ∧ finalAmount cart = 108) ∧
    ((quantitySum cart = 5 ∧ Cart.total cart = 50) →
      determineDiscount cart = .NoDiscount ∧ finalAmount cart = 50) := by
  constructor
  · rintro ⟨hq, ht⟩
    have hd : determineDiscount cart = .ApplyDiscount 10 := by
      rw [determineDiscount_eq_ite, hq]
      norm_num
    refine ⟨hd, ?_⟩
    simp only [finalAmount, USD, hd, ht]
    norm_num
  · rintro ⟨hq, ht⟩
    have hd : determineDiscount cart = .NoDiscount := by
      rw [determineDiscount_eq_ite, hq]
      norm_num
    exact ⟨hd, by simp only [finalAmount, hd, ht]⟩

/-- C5 witness: concrete carts realising both example classes. -/
theorem discount_checkout_examples_witness :
    (determineDiscount ⟨"a", [⟨"i", "n", 20, 6⟩]⟩ = .ApplyDiscount 10 ∧
      finalAmount ⟨"a", [⟨"i", "n", 20, 6⟩]⟩ = 108) ∧
    (determineDiscount ⟨"b", [⟨"j", "m", 10, 5⟩]⟩ = .NoDiscount ∧
      finalAmount ⟨"b", [⟨"j", "m", 10, 5⟩]⟩ = 50) :=
  ⟨(discount_checkout_examples ⟨"a", [⟨"i", "n", 20, 6⟩]⟩).1
      ⟨by norm_num [quantitySum], by norm_num [Cart.total, add, USD]⟩,
   (discount_checkout_examples ⟨"b", [⟨"j", "m", 10, 5⟩]⟩).2
      ⟨by norm_num [quantitySum], by norm_num [Cart.total, add, USD]⟩⟩

/-- C6: `total` is invariant under any permutation of the item sequence, and
deterministic: equal carts give equal totals. -/
theorem total_perm_invariant_deterministic :
    (∀ cart cart' : Cart, cart.items.Perm cart'.items →
      Cart.total cart = Cart.total cart') ∧
    (∀ cart cart' : Cart, cart = cart' → Cart.total cart = Cart.total cart') := by
  constructor
  · intro c c' h
    rw [total_eq_sum, total_eq_sum]
    exact (h.map fun item => item.price * item.quantity).sum_eq
  · intro c c' h
    rw [h]

/-- C6 witness: two concrete carts whose item lists are permutations of each
other have equal totals. -/
theorem total_perm_invariant_witness :
    Cart.total ⟨"a", [⟨"i1", "n1", 2, 3⟩, ⟨"i2", "n2", 5, 1⟩]⟩ =
      Cart.total ⟨"b", [⟨"i2", "n2", 5, 1⟩, ⟨"i1", "n1", 2, 3⟩]⟩ :=
  total_perm_invariant_deterministic.1 _ _ (List.Perm.swap _ _ _)

/-- C10: the discount decision depends only on the sum of the item
quantities: two carts with equal quantity sums get the same decision,
whatever their prices, names, identifiers, item order, or distribution of
the quantities across items. -/
theorem determineDiscount_only_quantitySum (cart cart' : Cart)
    (h : quantitySum cart = quantitySum cart') :
    determineDiscount cart = determineDiscount cart' := by
  rw [determineDiscount_eq_ite, determineDiscount_eq_ite, h]

/-- C7 counterexample: the `CartItem` schema types `quantity` as plain
`Schema.Number`, so an item with quantity -1 (neither positive nor a
positive integer) passes construction, and a cart containing it passes the
`Cart` schema. -/
theorem cartItem_quantity_not_enforced :
    CartItemAdmits ⟨"i", "n", 0, -1⟩ ∧
    ¬ (0 < (⟨"i", "n", 0, -1⟩ : CartItem).quantity) ∧
    CartAdmits ⟨"c", [⟨"i", "n", 0, -1⟩]⟩ := by
  refine ⟨le_refl 0, by norm_num, ?_⟩
  rintro item hmem
  rw [List.mem_singleton] at hmem
  subst hmem
  exact le_refl 0

/-- C7 amended: every item of a cart admitted by the schemas has a
non-negative price (under the spec-modelled `MoneySchema`), but the schemas
place no positivity or integrality bound on quantity: carts whose items have
non-positive quantities are admitted. -/
theorem cart_admission_bounds :
    (∀ cart : Cart, CartAdmits cart → ∀ item ∈ cart.items, 0 ≤ item.price) ∧
    (∃ cart : Cart, CartAdmits cart ∧ ∃ item ∈ cart.items, item.quantity ≤ 0) := by
  constructor
  · intro cart h item hmem
    exact h item hmem
  · refine ⟨⟨"c", [⟨"i", "n", 0, -1⟩]⟩, ?_, ⟨"i", "n", 0, -1⟩, by simp, by norm_num⟩
    rintro item hmem
    rw [List.mem_singleton] at hmem
    subst hmem
    exact le_refl 0

/-- C7 amended witness: a concrete admitted cart whose single item has
non-negative price. -/
theorem cart_admission_bounds_witness :
    (0 : ℚ) ≤ (⟨"i", "n", 2, 3⟩ : CartItem).price :=
  cart_admission_bounds.1 ⟨"c", [⟨"i", "n", 2, 3⟩]⟩
    (by
      rintro item hmem
      rw [List.mem_singleton] at hmem
      subst hmem
      norm_num [CartItemAdmits, MoneySchemaAdmits])
    ⟨"i", "n", 2, 3⟩ (by simp)

/-- C8: checkout's observable outcome — the returned result and the amounts
charged — is the same whatever the logging sink does at any of the logging
points; a logging failure is never propagated to the caller. -/
theorem checkout_independent_of_logging {ε : Type} (sink1 sink2 : LogMessage → Bool)
    (payment : ℚ → Except ε Unit) (cart : Cart) :
    (checkout sink1 payment cart).2 = (checkout sink2 payment cart).2 ∧
    chargedAmounts (checkout sink1 payment cart).1 =
      chargedAmounts (checkout sink2 payment cart).1 := by
  rcases determineDiscount_cases cart with hd | hd <;>
    cases hp : payment (finalAmount cart) <;>
    simp [checkout, chargedAmounts, hd, hp]

/-- C9: for a cart of non-negative total, the final amount checkout passes
to the payment collaborator is total or nine tenths of total, hence never
exceeds total and is never negative. -/
theorem finalAmount_bounded (cart : Cart) (h : 0 ≤ Cart.total cart) :
    (finalAmount cart = Cart.total cart ∨
      finalAmount cart = (9 / 10) * Cart.total cart) ∧
    finalAmount cart ≤ Cart.total cart ∧ 0 ≤ finalAmount cart := by
  rcases determineDiscount_cases cart with hd | hd
  · have hfa : finalAmount cart = Cart.total cart := by
      simp [finalAmount, hd]
    rw [hfa]
    exact ⟨Or.inl rfl, le_refl _, h⟩
  · have hfa : finalAmount cart = (9 / 10) * Cart.total cart := by
      simp only [finalAmount, USD, hd]
      ring
    rw [hfa]
    refine ⟨Or.inr rfl, ?_, ?_⟩ <;> nlinarith

/-- C9 witness: a concrete cart of non-negative total has its final amount
between zero and the total. -/
theorem finalAmount_bounded_witness :
    finalAmount ⟨"c", [⟨"i", "n", 20, 6⟩]⟩ ≤ Cart.total ⟨"c", [⟨"i", "n", 20, 6⟩]⟩ ∧
    0 ≤ finalAmount ⟨"c", [⟨"i", "n", 20, 6⟩]⟩ :=
  (finalAmount_bounded ⟨"c", [⟨"i", "n", 20, 6⟩]⟩
    (by norm_num [Cart.total, add, USD])).2

/-- C10 witness: two concrete carts with different prices, ids and item
splits but the same quantity sum get the same decision. -/
theorem determineDiscount_only_quantitySum_witness :
    determineDiscount ⟨"a", [⟨"i1", "x", 100, 2⟩, ⟨"i2", "y", 1, 4⟩]⟩ =
      determineDiscount ⟨"b", [⟨"j", "z", 7, 6⟩]⟩ :=
  determineDiscount_only_quantitySum _ _ (by norm_num [quantitySum])

end EffectTemplate
